import Mathlib

/-!
Verification development for the gsc-dashboard sync-and-aggregation engine.

The Python modules database.py, gsc_client.py and app.py are shallowly
embedded below.  SQLite tables become lists of structure values, ISO date
strings (compared lexicographically by SQLite, which for a fixed format
coincides with chronological order) become integer day numbers, REAL
columns become rationals, and the external Search Console API becomes an
explicit oracle mapping a start-row offset to a response.  Exceptions are
modelled with Except / Option return values.
-/

namespace Gsc

/-- A row of the keyword_data table (database.py schema).  The date is an
integer day number standing for the ISO date string. -/
structure Fact where
  site_id : Nat
  keyword : String
  page : String
  query_date : Int
  clicks : Int
  impressions : Int
  ctr : ℚ
  position : ℚ
  synced_at : Nat
  deriving Repr, DecidableEq

/-- The unique key of keyword_data: UNIQUE(site_id, keyword, page, query_date). -/
def factKey (f : Fact) : Nat × String × String × Int :=
  (f.site_id, f.keyword, f.page, f.query_date)

/-- An input row handed to bulk_upsert_keywords: the dict built in
sync_property, already carrying its date tag. -/
structure InRow where
  keyword : String
  page : String
  date : Int
  clicks : Int
  impressions : Int
  ctr : ℚ
  position : ℚ
  deriving Repr, DecidableEq

/-- The key the upsert conflicts on, for an input row bound to a site. -/
def rowKey (site_id : Nat) (r : InRow) : Nat × String × String × Int :=
  (site_id, r.keyword, r.page, r.date)

/-- The fact row an insert of an input row produces (database.py lines 136-156). -/
def factOfRow (now : Nat) (site_id : Nat) (r : InRow) : Fact :=
  { site_id := site_id, keyword := r.keyword, page := r.page, query_date := r.date,
    clicks := r.clicks, impressions := r.impressions, ctr := r.ctr,
    position := r.position, synced_at := now }

/-- One INSERT ... ON CONFLICT(site_id, keyword, page, query_date) DO UPDATE
step of bulk_upsert_keywords: if a row with the key exists its metric columns
are overwritten and synced_at is bumped, otherwise a fresh row is inserted. -/
def upsertOne (now : Nat) (site_id : Nat) (table : List Fact) (r : InRow) : List Fact :=
  if table.any (fun f => factKey f = rowKey site_id r) then
    table.map (fun f =>
      if factKey f = rowKey site_id r then
        { f with clicks := r.clicks, impressions := r.impressions,
                 ctr := r.ctr, position := r.position, synced_at := now }
      else f)
  else
    table ++ [factOfRow now site_id r]

/-- database.py bulk_upsert_keywords: executemany of the upsert statement over
the input rows in order; the Python function returns len(rows). -/
def bulk_upsert_keywords (now : Nat) (site_id : Nat) (table : List Fact)
    (rows : List InRow) : List Fact × Nat :=
  (rows.foldl (upsertOne now site_id) table, rows.length)

/-- Left fold that keeps the first occurrence of each element: the order in
which a Python dict (site_map in full_sync) or a SQL GROUP BY produces its
distinct keys. -/
def dedupKeys {α : Type} [DecidableEq α] (l : List α) : List α :=
  l.foldl (fun acc u => if u ∈ acc then acc else acc ++ [u]) []

/-- A row of the site_daily table (database.py schema). -/
structure DailyAgg where
  site_id : Nat
  query_date : Int
  total_clicks : Int
  total_impressions : Int
  avg_position : ℚ
  avg_ctr : ℚ
  keyword_count : Nat
  deriving Repr, DecidableEq

/-- The facts of one GROUP BY site_id, query_date group. -/
def factGroup (facts : List Fact) (sid : Nat) (d : Int) : List Fact :=
  facts.filter (fun f => f.site_id = sid ∧ f.query_date = d)

/-- The aggregate row the SELECT inside update_site_daily_aggregates computes
for one (site_id, query_date) group: SUM(clicks), SUM(impressions), the
impression-weighted position with a CASE guard against a zero denominator,
CAST(SUM(clicks) AS REAL)/SUM(impressions) likewise guarded, and
COUNT(DISTINCT keyword). -/
def aggFor (facts : List Fact) (sid : Nat) (d : Int) : DailyAgg :=
  let g := factGroup facts sid d
  let sc := (g.map (·.clicks)).sum
  let si := (g.map (·.impressions)).sum
  { site_id := sid, query_date := d, total_clicks := sc, total_impressions := si,
    avg_position := if 0 < si then ((g.map (fun f => f.position * (f.impressions : ℚ))).sum) / (si : ℚ) else 0,
    avg_ctr := if 0 < si then (sc : ℚ) / (si : ℚ) else 0,
    keyword_count := (dedupKeys (g.map (·.keyword))).length }

/-- The distinct query dates of a site present in keyword_data, in GROUP BY
order. -/
def siteDates (facts : List Fact) (sid : Nat) : List Int :=
  dedupKeys ((facts.filter (fun f => f.site_id = sid)).map (·.query_date))

/-- database.py update_site_daily_aggregates: INSERT OR REPLACE of one
recomputed aggregate row per (site_id, query_date) group found in
keyword_data for the site; existing site_daily rows for those keys are
replaced, all other rows are untouched. -/
def update_site_daily_aggregates (facts : List Fact) (sid : Nat)
    (daily : List DailyAgg) : List DailyAgg :=
  daily.filter (fun r => ¬ (r.site_id = sid ∧ r.query_date ∈ siteDates facts sid))
    ++ (siteDates facts sid).map (aggFor facts sid)

/-- config.py DAYS_TO_KEEP. -/
def DAYS_TO_KEEP : Int := 90

/-- database.py cleanup_old_data: cutoff = today - DAYS_TO_KEEP; DELETE FROM
keyword_data WHERE query_date < cutoff, DELETE FROM site_daily likewise; the
returned count is the rowcount of the keyword_data delete. -/
def cleanup_old_data (today : Int) (facts : List Fact) (daily : List DailyAgg) :
    List Fact × List DailyAgg × Nat :=
  let cutoff := today - DAYS_TO_KEEP
  (facts.filter (fun f => ¬ f.query_date < cutoff),
   daily.filter (fun r => ¬ r.query_date < cutoff),
   (facts.filter (fun f => f.query_date < cutoff)).length)

/-- A raw row of a Search Console query response: an ordered key tuple plus
metric fields, each of which may be absent (row.get with a default in the
client). -/
structure ApiRow where
  keys : List String
  clicks : Option Int
  impressions : Option Int
  ctr : Option ℚ
  position : Option ℚ
  deriving Repr, DecidableEq

/-- A parsed row as fetch_property_data accumulates it (gsc_client.py lines
104-113): keys[0] and keys[1] default to the empty string, metrics default
to zero. -/
structure FetchRow where
  keyword : String
  page : String
  clicks : Int
  impressions : Int
  ctr : ℚ
  position : ℚ
  deriving Repr, DecidableEq

/-- The dict appended to all_rows for one response row. -/
def parseRow (r : ApiRow) : FetchRow :=
  { keyword := r.keys.getD 0 "", page := r.keys.getD 1 "",
    clicks := r.clicks.getD 0, impressions := r.impressions.getD 0,
    ctr := r.ctr.getD 0, position := r.position.getD 0 }

/-- One response of the external API to a page request: either a row list or
an HttpError with a status code. -/
inductive ApiResult where
  | ok (rows : List ApiRow)
  | http (status : Nat)
  deriving Repr, DecidableEq

/-- config.py MAX_ROWS_PER_REQUEST, the rowLimit of every page request. -/
def MAX_ROWS_PER_REQUEST : Nat := 25000

/-- The while-loop of fetch_property_data.  The api oracle maps a startRow
offset to the response of the corresponding page request; fuel bounds the
number of iterations (none = fuel ran out, which never happens in the runs
considered here).  On success the result carries the accumulated parsed rows
together with the list of startRow offsets requested, in order; an HttpError
with status 403 makes the whole call return an empty row list, any other
HttpError status propagates as an error. -/
def fetchGo (api : Nat → ApiResult) (maxRows : Nat) :
    Nat → Nat → List FetchRow → List Nat → Option (Except Nat (List FetchRow × List Nat))
  | 0, _, _, _ => none
  | fuel + 1, startRow, acc, offs =>
    match api startRow with
    | .http s => if s = 403 then some (.ok ([], offs ++ [startRow])) else some (.error s)
    | .ok rows =>
      if rows.isEmpty then some (.ok (acc, offs ++ [startRow]))
      else if rows.length < maxRows then
        some (.ok (acc ++ rows.map parseRow, offs ++ [startRow]))
      else
        fetchGo api maxRows fuel (startRow + rows.length)
          (acc ++ rows.map parseRow) (offs ++ [startRow])

/-- gsc_client.py fetch_property_data: run the pagination loop from
startRow = 0 with an empty accumulator. -/
def fetch_property_data (api : Nat → ApiResult) (maxRows : Nat) (fuel : Nat) :
    Option (Except Nat (List FetchRow × List Nat)) :=
  fetchGo api maxRows fuel 0 [] []

/-- The (start_date, end_date) arguments of the fetch calls issued by
sync_property (gsc_client.py lines 127-135): end_date = today - 2,
start_date = end_date - days, and one single-day fetch per loop iteration at
start_date + day_offset for day_offset in range(days). -/
def sync_fetch_calls (today : Int) (days : Nat) : List (Int × Int) :=
  (List.range days).map (fun off : Nat =>
    (today - 2 - days + (off : Int), today - 2 - days + (off : Int)))

/-- The outcome of the body of sync_property for one property, as an oracle:
either a total ingested row count or the message of the exception the body
raised. -/
inductive SyncOutcome where
  | ok (rows : Nat)
  | fail (msg : String)
  deriving Repr, DecidableEq

/-- gsc_client.py sync_property, result shape: the try block either returns
(total_rows, "") or the except branch returns (0, f"{site_url}: {e}"). -/
def sync_property_result (url : String) (o : SyncOutcome) : Nat × String :=
  match o with
  | .ok n => (n, "")
  | .fail e => (0, url ++ ": " ++ e)

/-- The per-source loop of full_sync (gsc_client.py lines 177-195): running
totals of rows, error strings and synced-source count.  Batching only
inserts sleeps between slices of the url list and the slices concatenate
back to the list, so the fold is over the urls in order. -/
def runSources (oracle : String → SyncOutcome) (urls : List String) :
    Nat × List String × Nat :=
  urls.foldl
    (fun acc url =>
      let r := sync_property_result url (oracle url)
      if r.2 ≠ "" then (acc.1 + r.1, acc.2.1 ++ [r.2], acc.2.2)
      else (acc.1 + r.1, acc.2.1, acc.2.2 + 1))
    (0, [], 0)

/-- A row of the sync_log table.  completed is true once completed_at has
been stamped by update_sync_log. -/
structure RunLogEntry where
  completed : Bool
  sites_synced : Nat
  total_rows : Nat
  errors : String
  status : String
  deriving Repr, DecidableEq

/-- The entry create_sync_log inserts: status running, nothing else filled. -/
def initialEntry : RunLogEntry :=
  { completed := false, sites_synced := 0, total_rows := 0, errors := "", status := "running" }

/-- The summary dict full_sync returns. -/
structure SyncSummary where
  properties_discovered : Nat
  sites_synced : Nat
  total_rows : Nat
  errors : List String
  status : String
  deriving Repr, DecidableEq

/-- gsc_client.py full_sync over the run log.  The discover argument is the
result of discover_properties: a url list, or the exception it raised.  The
oracle gives each property sync outcome.  Step order as in the source:
create_sync_log first, then discovery - an exception there propagates with
the freshly created entry still in status running (there is no handler in
full_sync) - then the per-source loop over the dict-deduplicated urls, then
update_sync_log on the created entry, and the summary is returned.  The
second component is none when full_sync raised. -/
def full_sync (discover : Except String (List String))
    (oracle : String → SyncOutcome) (log : List RunLogEntry) :
    List RunLogEntry × Option SyncSummary :=
  let log := log ++ [initialEntry]
  match discover with
  | .error _ => (log, none)
  | .ok urls =>
    let r := runSources oracle (dedupKeys urls)
    let status := if r.2.1 = [] then "completed" else "completed_with_errors"
    let entry : RunLogEntry :=
      { completed := true, sites_synced := r.2.2, total_rows := r.1,
        errors := String.intercalate "\n" r.2.1, status := status }
    (log.dropLast ++ [entry],
     some { properties_discovered := urls.length, sites_synced := r.2.2,
            total_rows := r.1, errors := r.2.1, status := status })

/-- The process state app.py keeps around full_sync: the module-global
_sync_running flag and the run log table. -/
structure AppState where
  sync_running : Bool
  runLog : List RunLogEntry
  deriving Repr, DecidableEq

/-- app.py trigger_sync, the guard part: a request finding _sync_running set
is answered already_running and changes nothing; otherwise the response is
started and the worker thread is spawned (its execution is run_sync below). -/
def trigger_sync (s : AppState) : AppState × String :=
  if s.sync_running then (s, "already_running") else (s, "started")

/-- The run_sync worker body inside trigger_sync: set _sync_running, run
full_sync under try/except (an exception is logged, not re-raised), and in
the finally block clear _sync_running. -/
def run_sync (discover : Except String (List String))
    (oracle : String → SyncOutcome) (s : AppState) : AppState :=
  let r := full_sync discover oracle s.runLog
  { sync_running := false, runLog := r.1 }

/-- A joined output row of the get_movers query: one (site, keyword) pair
with data in both windows. -/
structure MoverRow where
  site_id : Nat
  keyword : String
  current_pos : ℚ
  prev_pos : ℚ
  pos_change : ℚ
  current_clicks : Int
  prev_clicks : Int
  click_change : Int
  current_impressions : Int
  deriving Repr, DecidableEq

/-- Impression-weighted average position of a fact group, with the CASE
guard: 0 when the summed impressions are not positive. -/
def wAvgPos (g : List Fact) : ℚ :=
  if 0 < (g.map (·.impressions)).sum then
    ((g.map (fun f => f.position * (f.impressions : ℚ))).sum) / (((g.map (·.impressions)).sum : Int) : ℚ)
  else 0

/-- The this_week CTE group of one (site, keyword): facts with
query_date >= today - days. -/
def thisGroup (facts : List Fact) (today : Int) (days : Nat) (sid : Nat) (kw : String) :
    List Fact :=
  facts.filter (fun f => today - days ≤ f.query_date ∧ f.site_id = sid ∧ f.keyword = kw)

/-- The prev_week CTE group of one (site, keyword): facts with
today - 2*days <= query_date < today - days. -/
def prevGroup (facts : List Fact) (today : Int) (days : Nat) (sid : Nat) (kw : String) :
    List Fact :=
  facts.filter (fun f =>
    today - 2 * days ≤ f.query_date ∧ f.query_date < today - days ∧
    f.site_id = sid ∧ f.keyword = kw)

/-- The joined SELECT row for one (site, keyword) key present in both CTEs. -/
def moverRow (facts : List Fact) (today : Int) (days : Nat) (k : Nat × String) : MoverRow :=
  let tg := thisGroup facts today days k.1 k.2
  let pg := prevGroup facts today days k.1 k.2
  { site_id := k.1, keyword := k.2,
    current_pos := wAvgPos tg, prev_pos := wAvgPos pg,
    pos_change := wAvgPos pg - wAvgPos tg,
    current_clicks := (tg.map (·.clicks)).sum, prev_clicks := (pg.map (·.clicks)).sum,
    click_change := (tg.map (·.clicks)).sum - (pg.map (·.clicks)).sum,
    current_impressions := (tg.map (·.impressions)).sum }

/-- Insert into a list sorted by the boolean order le. -/
def insertSorted {α : Type} (le : α → α → Bool) (a : α) : List α → List α
  | [] => [a]
  | b :: bs => if le a b then a :: b :: bs else b :: insertSorted le a bs

/-- Insertion sort by the boolean order le, the model of SQL ORDER BY and
python sorted. -/
def sortBy {α : Type} (le : α → α → Bool) (l : List α) : List α :=
  l.foldr (insertSorted le) []

/-- The joined (site_id, keyword) keys of the get_movers query: GROUP BY
keys of the this_week CTE that also appear among the GROUP BY keys of the
prev_week CTE. -/
def movKeys (facts : List Fact) (today : Int) (days : Nat) : List (Nat × String) :=
  (dedupKeys ((facts.filter (fun f => today - days ≤ f.query_date)).map
    (fun f => (f.site_id, f.keyword)))).filter
    (fun k => k ∈ dedupKeys ((facts.filter (fun f =>
      today - 2 * days ≤ f.query_date ∧ f.query_date < today - days)).map
      (fun f => (f.site_id, f.keyword))))

/-- The joined rows of the get_movers SELECT after its WHERE clause
ABS(pw.avg_pos - tw.avg_pos) > 1. -/
def movRows (facts : List Fact) (today : Int) (days : Nat) : List MoverRow :=
  ((movKeys facts today days).map (moverRow facts today days)).filter
    (fun r => 1 < |r.prev_pos - r.current_pos|)

/-- database.py get_movers: join the two window CTEs on (site_id, keyword),
keep |prev avg - current avg| > 1, ORDER BY pos_change DESC LIMIT limit*2,
then split in python: winners = rows with positive pos_change, first limit
of them; losers = rows with negative pos_change re-sorted ascending, first
limit of them. -/
def get_movers (facts : List Fact) (today : Int) (days : Nat) (limit : Nat) :
    List MoverRow × List MoverRow :=
  let rows := (sortBy (fun a b => b.pos_change ≤ a.pos_change)
    (movRows facts today days)).take (limit * 2)
  ((rows.filter (fun r => 0 < r.pos_change)).take limit,
   (sortBy (fun a b => a.pos_change ≤ b.pos_change)
     (rows.filter (fun r => r.pos_change < 0))).take limit)

/-! Helper lemmas. -/

theorem mem_insertSorted {α : Type} (le : α → α → Bool) (a x : α) (l : List α) :
    x ∈ insertSorted le a l ↔ x = a ∨ x ∈ l := by
  induction l with
  | nil => simp [insertSorted]
  | cons b bs ih =>
    simp only [insertSorted]
    split
    · simp [or_comm, or_left_comm]
    · simp [ih, or_comm, or_left_comm]

theorem mem_sortBy {α : Type} (le : α → α → Bool) (x : α) (l : List α) :
    x ∈ sortBy le l ↔ x ∈ l := by
  induction l with
  | nil => simp [sortBy]
  | cons b bs ih =>
    simp only [sortBy, List.foldr_cons] at ih ⊢
    rw [mem_insertSorted, ih, List.mem_cons]

/-! Claim C2: the fetch window of sync_property. -/

/-- Claim C2, counterexample: with today = 100 and days = 7 the claimed
window end today - 2 = 98 is never fetched; sync_property issues no fetch
call for that day. -/
theorem sync_window_counterexample :
    ((98 : Int), (98 : Int)) ∉ sync_fetch_calls 100 7 ∧ (100 : Int) - 2 = 98 := by
  constructor
  · decide
  · norm_num

/-- Claim C2 (amended): sync_property issues exactly one single-day fetch
per day, and the days fetched are exactly the inclusive range from
today - 2 - days up to today - 3; the day today - 2 itself is not fetched. -/
theorem sync_window_char (today : Int) (days : Nat) :
    (∀ c ∈ sync_fetch_calls today days, c.1 = c.2) ∧
    ((sync_fetch_calls today days).map Prod.fst).Nodup ∧
    (∀ d : Int, (d, d) ∈ sync_fetch_calls today days ↔
      today - 2 - days ≤ d ∧ d < today - 2) := by
  refine ⟨?_, ?_, ?_⟩
  · intro c hc
    rcases List.mem_map.1 hc with ⟨off, _, rfl⟩
    rfl
  · have h : ((sync_fetch_calls today days).map Prod.fst) =
        (List.range days).map (fun off : Nat => today - 2 - days + (off : Int)) := by
      simp [sync_fetch_calls, List.map_map, Function.comp]
    rw [h]
    refine List.Nodup.map ?_ (List.nodup_range days)
    intro x y hxy
    simp only at hxy
    omega
  · intro d
    constructor
    · intro hd
      rcases List.mem_map.1 hd with ⟨off, hoff, heq⟩
      rw [List.mem_range] at hoff
      have h1 : today - 2 - days + off = d := congrArg Prod.fst heq
      omega
    · rintro ⟨h1, h2⟩
      refine List.mem_map.2 ⟨(d - (today - 2 - days)).toNat, ?_, ?_⟩
      · rw [List.mem_range]
        omega
      · have : ((d - (today - 2 - days)).toNat : Int) = d - (today - 2 - days) := by
          omega
        rw [this]
        ext <;> ring

/-- Claim C2, witness for the amended statement: day 91 is fetched in the
run with today = 100, days = 7. -/
theorem sync_window_char_witness :
    ((91 : Int), (91 : Int)) ∈ sync_fetch_calls 100 7 :=
  ((sync_window_char 100 7).2.2 91).mpr (by norm_num)

/-! Claim C7: forbidden access is non-fatal, other API errors propagate. -/

/-- Claim C7: when a page request of the pagination loop gets an HttpError
with status 403, fetch_property_data returns an empty row list instead of
raising; any other HttpError status propagates as an error.  The loop state
(startRow, accumulator, offsets) is arbitrary, so this covers a 403 on any
page of a fetch_property_data call, which starts at startRow = 0 with empty
accumulators. -/
theorem fetch_forbidden (api : Nat → ApiResult) (maxRows fuel startRow : Nat)
    (acc : List FetchRow) (offs : List Nat) (s : Nat)
    (h : api startRow = .http s) :
    (s = 403 → fetchGo api maxRows (fuel + 1) startRow acc offs =
      some (.ok ([], offs ++ [startRow]))) ∧
    (s ≠ 403 → fetchGo api maxRows (fuel + 1) startRow acc offs =
      some (.error s)) := by
  constructor
  · intro hs
    simp [fetchGo, h, hs]
  · intro hs
    simp [fetchGo, h, hs]

/-- Claim C7, witness: a 403 on the first page yields an empty result, a 500
on the first page propagates. -/
theorem fetch_forbidden_witness :
    fetch_property_data (fun _ => ApiResult.http 403) 25000 1 = some (.ok ([], [0])) ∧
    fetch_property_data (fun _ => ApiResult.http 500) 25000 1 = some (.error 500) :=
  ⟨(fetch_forbidden (fun _ => ApiResult.http 403) 25000 0 0 [] [] 403 rfl).1 rfl,
   (fetch_forbidden (fun _ => ApiResult.http 500) 25000 0 0 [] [] 500 rfl).2 (by decide)⟩

/-! Claim C8: retention purge. -/

/-- Claim C8: cleanup_old_data deletes every fact dated
today - DAYS_TO_KEEP - 1, retains every fact dated today, and deletes every
site_daily row older than the cutoff today - DAYS_TO_KEEP. -/
theorem cleanup_retention (today : Int) (facts : List Fact) (daily : List DailyAgg) :
    (∀ f ∈ facts, f.query_date = today - DAYS_TO_KEEP - 1 →
      f ∉ (cleanup_old_data today facts daily).1) ∧
    (∀ f ∈ facts, f.query_date = today → f ∈ (cleanup_old_data today facts daily).1) ∧
    (∀ r ∈ daily, r.query_date < today - DAYS_TO_KEEP →
      r ∉ (cleanup_old_data today facts daily).2.1) := by
  have hD : DAYS_TO_KEEP = (90 : Int) := rfl
  refine ⟨?_, ?_, ?_⟩
  · intro f _ hdate hmem
    rw [cleanup_old_data, List.mem_filter] at hmem
    have h2 := hmem.2
    simp only [decide_eq_true_eq] at h2
    rw [hD] at hdate h2
    omega
  · intro f hf hdate
    rw [cleanup_old_data, List.mem_filter]
    refine ⟨hf, ?_⟩
    simp only [decide_eq_true_eq]
    rw [hD, hdate]
    omega
  · intro r _ hdate hmem
    rw [cleanup_old_data, List.mem_filter] at hmem
    have h2 := hmem.2
    simp only [decide_eq_true_eq] at h2
    exact h2 hdate

/-- Claim C8, witness: with today = 0, a fact dated -91 is purged and a fact
dated 0 is retained. -/
theorem cleanup_retention_witness :
    ({ site_id := 1, keyword := "k", page := "", query_date := -91, clicks := 1,
       impressions := 1, ctr := 0, position := 1, synced_at := 0 } : Fact) ∉
      (cleanup_old_data 0
        [{ site_id := 1, keyword := "k", page := "", query_date := -91, clicks := 1,
           impressions := 1, ctr := 0, position := 1, synced_at := 0 }] []).1 :=
  (cleanup_retention 0
      [{ site_id := 1, keyword := "k", page := "", query_date := -91, clicks := 1,
         impressions := 1, ctr := 0, position := 1, synced_at := 0 }] []).1
    _ (by simp) (by norm_num [DAYS_TO_KEEP])

/-! Claim C9: single-flight guard of the on-demand sync trigger. -/

/-- Claim C9: a trigger while the in-flight flag is set is answered
already_running and leaves the state (hence the run log) unchanged; the
worker clears the flag at the end of the run whether full_sync returned or
raised; a trigger after the run ends is answered started. -/
theorem single_flight (s : AppState) (discover : Except String (List String))
    (oracle : String → SyncOutcome) :
    (s.sync_running = true → trigger_sync s = (s, "already_running")) ∧
    (run_sync discover oracle s).sync_running = false ∧
    (trigger_sync (run_sync discover oracle s)).2 = "started" := by
  refine ⟨?_, rfl, ?_⟩
  · intro h
    simp [trigger_sync, h]
  · simp [trigger_sync, run_sync]

/-- Claim C9, witness: with the flag set, the trigger is rejected; after a
run that raised in discovery, the flag is down and a trigger is accepted. -/
theorem single_flight_witness :
    trigger_sync { sync_running := true, runLog := [] } =
      ({ sync_running := true, runLog := [] }, "already_running") ∧
    (run_sync (.error "invalid_grant") (fun _ => .ok 0)
      { sync_running := true, runLog := [] }).sync_running = false :=
  ⟨(single_flight { sync_running := true, runLog := [] } (.error "invalid_grant")
      (fun _ => .ok 0)).1 rfl,
   (single_flight { sync_running := true, runLog := [] } (.error "invalid_grant")
      (fun _ => .ok 0)).2.1⟩

/-! Claim C3: pagination of fetch_property_data. -/

theorem fetchGo_step_full (api : Nat → ApiResult) (maxRows fuel startRow : Nat)
    (acc : List FetchRow) (offs : List Nat) (p : List ApiRow)
    (h : api startRow = .ok p) (hl : p.length = maxRows) (hm : 0 < maxRows) :
    fetchGo api maxRows (fuel + 1) startRow acc offs =
      fetchGo api maxRows fuel (startRow + maxRows) (acc ++ p.map parseRow)
        (offs ++ [startRow]) := by
  have hne : p.isEmpty = false := by
    cases p with
    | nil => simp at hl; omega
    | cons a as => rfl
  have hnl : ¬ p.length < maxRows := by omega
  simp [fetchGo, h, hne, hnl, hl]

theorem fetchGo_step_last (api : Nat → ApiResult) (maxRows fuel startRow : Nat)
    (acc : List FetchRow) (offs : List Nat) (p : List ApiRow)
    (h : api startRow = .ok p) (hl : p.length < maxRows) :
    fetchGo api maxRows (fuel + 1) startRow acc offs =
      some (.ok (acc ++ p.map parseRow, offs ++ [startRow])) := by
  cases p with
  | nil => simp [fetchGo, h]
  | cons a as =>
    have hne : (a :: as).isEmpty = false := rfl
    have hl2 : as.length + 1 < maxRows := by simpa using hl
    simp [fetchGo, h, hne, hl]
    intro hge
    exact absurd hl2 (by omega)

/-- Claim C3: against a source serving pages of sizes
[maxRows, maxRows, k] with k < maxRows, fetch_property_data issues exactly
the three page requests at offsets 0, maxRows and maxRows + maxRows - each
offset advanced by the count the previous page returned - and returns the
concatenation of the pages in source order, 2*maxRows + k rows in total. -/
theorem fetch_pagination (api : Nat → ApiResult) (maxRows fuel : Nat)
    (p1 p2 p3 : List ApiRow)
    (h1 : api 0 = .ok p1) (l1 : p1.length = maxRows)
    (h2 : api maxRows = .ok p2) (l2 : p2.length = maxRows)
    (h3 : api (maxRows + maxRows) = .ok p3) (l3 : p3.length < maxRows) :
    fetch_property_data api maxRows (fuel + 3) =
      some (.ok ((p1 ++ p2 ++ p3).map parseRow, [0, maxRows, maxRows + maxRows])) ∧
    ((p1 ++ p2 ++ p3).map parseRow).length = maxRows + maxRows + p3.length := by
  have hm : 0 < maxRows := by omega
  constructor
  · rw [fetch_property_data]
    rw [show fuel + 3 = (fuel + 2) + 1 by omega,
      fetchGo_step_full api maxRows (fuel + 2) 0 [] [] p1 h1 l1 hm]
    simp only [List.nil_append, Nat.zero_add]
    rw [show fuel + 2 = (fuel + 1) + 1 by omega,
      fetchGo_step_full api maxRows (fuel + 1) maxRows (List.map parseRow p1)
        [0] p2 h2 l2 hm]
    rw [fetchGo_step_last api maxRows fuel (maxRows + maxRows) _ _ p3 h3 l3]
    simp [List.map_append]
  · simp [l1, l2]
    omega

/-- The api oracle of the C3 witness: page size 2, pages of sizes 2, 2, 1. -/
def apiW : Nat → ApiResult := fun s =>
  if s = 0 then
    .ok [{ keys := ["k1", "/a"], clicks := some 3, impressions := some 10,
           ctr := some 0, position := some 4 },
         { keys := ["k2", "/b"], clicks := some 1, impressions := some 5,
           ctr := some 0, position := some 8 }]
  else if s = 2 then
    .ok [{ keys := ["k3"], clicks := none, impressions := some 2,
           ctr := none, position := some 12 },
         { keys := [], clicks := some 0, impressions := none,
           ctr := some 0, position := none }]
  else
    .ok [{ keys := ["k5", "/e"], clicks := some 7, impressions := some 9,
           ctr := some 0, position := some 2 }]

/-- Claim C3, witness: the concrete oracle apiW with page size 2 yields the
five rows of its three pages in order, requested at offsets 0, 2 and 4. -/
theorem fetch_pagination_witness :
    fetch_property_data apiW 2 3 =
      some (.ok (((match apiW 0 with | .ok p => p | .http _ => []) ++
        (match apiW 2 with | .ok p => p | .http _ => []) ++
        (match apiW 4 with | .ok p => p | .http _ => [])).map parseRow,
        [0, 2, 2 + 2])) :=
  (fetch_pagination apiW 2 0
    (match apiW 0 with | .ok p => p | .http _ => [])
    (match apiW 2 with | .ok p => p | .http _ => [])
    (match apiW 4 with | .ok p => p | .http _ => [])
    rfl rfl rfl rfl rfl (by decide)).1

/-! Claim C5: last-write-wins upsert of keyword facts. -/

theorem upsertOne_key_facts (now : Nat) (site_id : Nat) (table : List Fact) (r : InRow)
    (h : ((table.filter (fun f => factKey f = rowKey site_id r)).length ≤ 1)) :
    ((upsertOne now site_id table r).filter
        (fun f => factKey f = rowKey site_id r)).length = 1 ∧
    ∀ f ∈ upsertOne now site_id table r, factKey f = rowKey site_id r →
      f.clicks = r.clicks ∧ f.impressions = r.impressions ∧
      f.ctr = r.ctr ∧ f.position = r.position ∧ f.synced_at = now := by
  by_cases hany : table.any (fun f => factKey f = rowKey site_id r)
  · rw [upsertOne, if_pos hany]
    set g : Fact → Fact := fun f =>
      if factKey f = rowKey site_id r then
        { f with clicks := r.clicks, impressions := r.impressions,
                 ctr := r.ctr, position := r.position, synced_at := now }
      else f with hg
    have hkey : ∀ f : Fact, factKey (g f) = factKey f := by
      intro f
      rw [hg]
      by_cases hf : factKey f = rowKey site_id r
      · simp only [if_pos hf]
        rfl
      · simp only [if_neg hf]
    have hcomp : ((fun f => decide (factKey f = rowKey site_id r)) ∘ g) =
        (fun f => decide (factKey f = rowKey site_id r)) := by
      funext f
      simp [Function.comp, hkey f]
    constructor
    · rw [List.filter_map g table, hcomp, List.length_map]
      rcases List.any_eq_true.1 hany with ⟨f, hf, hpf⟩
      have hpos : 0 < (table.filter (fun f => factKey f = rowKey site_id r)).length := by
        refine List.length_pos.2 ?_
        intro hnil
        have := List.filter_eq_nil_iff.1 hnil f hf
        exact this hpf
      omega
    · intro f' hf' hk
      rcases List.mem_map.1 hf' with ⟨f, hf, rfl⟩
      by_cases hpf : factKey f = rowKey site_id r
      · simp [hg, hpf]
      · rw [hkey f] at hk
        exact absurd hk hpf
  · rw [upsertOne, if_neg hany]
    have hanyf : table.any (fun f => factKey f = rowKey site_id r) = false :=
      Bool.eq_false_iff.2 hany
    have hnone : ∀ f ∈ table, ¬ (factKey f = rowKey site_id r) := by
      intro f hf
      have := List.any_eq_false.1 hanyf f hf
      simpa using this
    have hnew : factKey (factOfRow now site_id r) = rowKey site_id r := rfl
    constructor
    · rw [List.filter_append]
      have h1 : table.filter (fun f => factKey f = rowKey site_id r) = [] := by
        refine List.filter_eq_nil_iff.2 ?_
        intro f hf
        simpa using hnone f hf
      rw [h1]
      simp [hnew]
    · intro f' hf' hk
      rcases List.mem_append.1 hf' with hmem | hmem
      · exact absurd hk (hnone f' hmem)
      · rcases List.mem_singleton.1 hmem with rfl
        exact ⟨rfl, rfl, rfl, rfl, rfl⟩

/-- Claim C5: two bulk_upsert_keywords calls with single rows carrying the
same (site_id, keyword, page, date) key but different metric values leave
exactly one stored fact row with that key, and its metric columns are the
values of the second call.  The hypothesis is the UNIQUE(site_id, keyword, page,
query_date) table constraint: at most one existing row with the key. -/
theorem bulk_upsert_last_write_wins (now1 now2 : Nat) (site_id : Nat)
    (table : List Fact) (r1 r2 : InRow)
    (hk : rowKey site_id r1 = rowKey site_id r2)
    (h : (table.filter (fun f => factKey f = rowKey site_id r2)).length ≤ 1) :
    (((bulk_upsert_keywords now2 site_id
        (bulk_upsert_keywords now1 site_id table [r1]).1 [r2]).1).filter
          (fun f => factKey f = rowKey site_id r2)).length = 1 ∧
    ∀ f ∈ (bulk_upsert_keywords now2 site_id
        (bulk_upsert_keywords now1 site_id table [r1]).1 [r2]).1,
      factKey f = rowKey site_id r2 →
      f.clicks = r2.clicks ∧ f.impressions = r2.impressions ∧
      f.ctr = r2.ctr ∧ f.position = r2.position := by
  have hb1 : (bulk_upsert_keywords now1 site_id table [r1]).1 =
      upsertOne now1 site_id table r1 := rfl
  have hb2 : ∀ t : List Fact, (bulk_upsert_keywords now2 site_id t [r2]).1 =
      upsertOne now2 site_id t r2 := fun _ => rfl
  rw [hb1, hb2]
  have first := upsertOne_key_facts now1 site_id table r1 (by rw [hk]; exact h)
  have hle : ((upsertOne now1 site_id table r1).filter
      (fun f => factKey f = rowKey site_id r2)).length ≤ 1 := by
    rw [← hk]
    exact le_of_eq first.1
  have second := upsertOne_key_facts now2 site_id (upsertOne now1 site_id table r1) r2 hle
  exact ⟨second.1, fun f hf hkf =>
    ⟨(second.2 f hf hkf).1, (second.2 f hf hkf).2.1,
     (second.2 f hf hkf).2.2.1, (second.2 f hf hkf).2.2.2.1⟩⟩

/-- The two input rows of the C5 witness: same key, different metrics. -/
def r1W : InRow :=
  { keyword := "lean", page := "/docs", date := 10, clicks := 3, impressions := 40,
    ctr := 3 / 40, position := 7 }

/-- Second input row of the C5 witness. -/
def r2W : InRow :=
  { keyword := "lean", page := "/docs", date := 10, clicks := 9, impressions := 50,
    ctr := 9 / 50, position := 5 }

/-- Claim C5, witness: upserting r1W then r2W into an empty table leaves
exactly one row with the shared key. -/
theorem bulk_upsert_last_write_wins_witness :
    (((bulk_upsert_keywords 8 1 (bulk_upsert_keywords 7 1 [] [r1W]).1 [r2W]).1).filter
      (fun f => factKey f = rowKey 1 r2W)).length = 1 :=
  (bulk_upsert_last_write_wins 7 8 1 [] r1W r2W rfl (by simp)).1

/-! Claim C6: rollup consistency after update_site_daily_aggregates. -/

/-- Claim C6: after recomputing the daily rollups of a site, every rollup row
of that site equals the aggregation of the current facts for its
(site, date): total_clicks is the sum of the facts clicks, avg_position is
the impression-weighted mean of the facts positions, avg_ctr is total clicks
over total impressions, and both averages are 0 when the summed impressions
are not positive.  The hypothesis states that every pre-existing rollup row
of the site has a date still backed by facts, which holds in every reachable
store state: rollup rows are only created by this recompute and
cleanup_old_data deletes facts and rollups with the same cutoff. -/
theorem rollup_consistency (facts : List Fact) (sid : Nat) (daily : List DailyAgg)
    (hd : ∀ r ∈ daily, r.site_id = sid → r.query_date ∈ siteDates facts sid) :
    ∀ r ∈ update_site_daily_aggregates facts sid daily, r.site_id = sid →
      r.total_clicks = ((factGroup facts sid r.query_date).map (·.clicks)).sum ∧
      r.total_impressions = ((factGroup facts sid r.query_date).map (·.impressions)).sum ∧
      (0 < r.total_impressions →
        r.avg_position =
          ((factGroup facts sid r.query_date).map
            (fun f => f.position * (f.impressions : ℚ))).sum / (r.total_impressions : ℚ) ∧
        r.avg_ctr = (r.total_clicks : ℚ) / (r.total_impressions : ℚ)) ∧
      (¬ 0 < r.total_impressions → r.avg_position = 0 ∧ r.avg_ctr = 0) := by
  intro r hr hsid
  rw [update_site_daily_aggregates] at hr
  rcases List.mem_append.1 hr with hold | hnew
  · rcases List.mem_filter.1 hold with ⟨hmem, hpred⟩
    exfalso
    have := hd r hmem hsid
    simp only [decide_eq_true_eq] at hpred
    exact hpred ⟨hsid, this⟩
  · rcases List.mem_map.1 hnew with ⟨d, _, rfl⟩
    have hdate : (aggFor facts sid d).query_date = d := rfl
    have hclicks : (aggFor facts sid d).total_clicks =
        ((factGroup facts sid d).map (·.clicks)).sum := rfl
    have himp : (aggFor facts sid d).total_impressions =
        ((factGroup facts sid d).map (·.impressions)).sum := rfl
    rw [hdate]
    refine ⟨hclicks, himp, ?_, ?_⟩
    · intro hpos
      have hpos2 : 0 < ((factGroup facts sid d).map (·.impressions)).sum := by
        rw [← himp]; exact hpos
      constructor
      · show (if 0 < ((factGroup facts sid d).map (·.impressions)).sum then
            ((factGroup facts sid d).map (fun f => f.position * (f.impressions : ℚ))).sum /
              ((((factGroup facts sid d).map (·.impressions)).sum : Int) : ℚ)
          else 0) = _
        rw [if_pos hpos2, himp]
      · show (if 0 < ((factGroup facts sid d).map (·.impressions)).sum then
            ((((factGroup facts sid d).map (·.clicks)).sum : Int) : ℚ) /
              ((((factGroup facts sid d).map (·.impressions)).sum : Int) : ℚ)
          else 0) = _
        rw [if_pos hpos2, himp, hclicks]
    · intro hneg
      have hneg2 : ¬ 0 < ((factGroup facts sid d).map (·.impressions)).sum := by
        rw [← himp]; exact hneg
      constructor
      · show (if 0 < ((factGroup facts sid d).map (·.impressions)).sum then
            ((factGroup facts sid d).map (fun f => f.position * (f.impressions : ℚ))).sum /
              ((((factGroup facts sid d).map (·.impressions)).sum : Int) : ℚ)
          else 0) = 0
        rw [if_neg hneg2]
      · show (if 0 < ((factGroup facts sid d).map (·.impressions)).sum then
            ((((factGroup facts sid d).map (·.clicks)).sum : Int) : ℚ) /
              ((((factGroup facts sid d).map (·.impressions)).sum : Int) : ℚ)
          else 0) = 0
        rw [if_neg hneg2]

/-- The fact table of the C6 witness: two facts of site 1 on day 5. -/
def factsW : List Fact :=
  [{ site_id := 1, keyword := "alpha", page := "/a", query_date := 5, clicks := 2,
     impressions := 10, ctr := 1 / 5, position := 4, synced_at := 0 },
   { site_id := 1, keyword := "beta", page := "/b", query_date := 5, clicks := 1,
     impressions := 30, ctr := 1 / 30, position := 8, synced_at := 0 }]

/-- Claim C6, witness: the recomputed day-5 rollup row of site 1 carries the
sums and weighted averages of the two facts of factsW. -/
theorem rollup_consistency_witness :
    (aggFor factsW 1 5).total_clicks = ((factGroup factsW 1 5).map (·.clicks)).sum ∧
    (aggFor factsW 1 5).total_impressions =
      ((factGroup factsW 1 5).map (·.impressions)).sum ∧
    (0 < (aggFor factsW 1 5).total_impressions →
      (aggFor factsW 1 5).avg_position =
        ((factGroup factsW 1 5).map
          (fun f => f.position * (f.impressions : ℚ))).sum /
            ((aggFor factsW 1 5).total_impressions : ℚ) ∧
      (aggFor factsW 1 5).avg_ctr =
        ((aggFor factsW 1 5).total_clicks : ℚ) /
          ((aggFor factsW 1 5).total_impressions : ℚ)) ∧
    (¬ 0 < (aggFor factsW 1 5).total_impressions →
      (aggFor factsW 1 5).avg_position = 0 ∧ (aggFor factsW 1 5).avg_ctr = 0) :=
  rollup_consistency factsW 1 [] (by simp) (aggFor factsW 1 5)
    (by rw [show update_site_daily_aggregates factsW 1 [] = [aggFor factsW 1 5] from rfl]
        exact List.mem_singleton.2 rfl) rfl

/-! Claims C1 and C4: run-log finalization and per-source error isolation
in full_sync. -/

theorem dropLast_append_singleton {α : Type} (l : List α) (a : α) :
    (l ++ [a]).dropLast = l := by simp

/-- The finalized run-log entry full_sync writes when discovery succeeded. -/
def syncEntry (oracle : String → SyncOutcome) (urls : List String) : RunLogEntry :=
  { completed := true,
    sites_synced := (runSources oracle (dedupKeys urls)).2.2,
    total_rows := (runSources oracle (dedupKeys urls)).1,
    errors := String.intercalate "\n" (runSources oracle (dedupKeys urls)).2.1,
    status := if (runSources oracle (dedupKeys urls)).2.1 = []
      then "completed" else "completed_with_errors" }

/-- The summary full_sync returns when discovery succeeded. -/
def syncSummaryOf (oracle : String → SyncOutcome) (urls : List String) : SyncSummary :=
  { properties_discovered := urls.length,
    sites_synced := (runSources oracle (dedupKeys urls)).2.2,
    total_rows := (runSources oracle (dedupKeys urls)).1,
    errors := (runSources oracle (dedupKeys urls)).2.1,
    status := if (runSources oracle (dedupKeys urls)).2.1 = []
      then "completed" else "completed_with_errors" }

theorem full_sync_ok_eq (oracle : String → SyncOutcome) (log : List RunLogEntry)
    (urls : List String) :
    full_sync (.ok urls) oracle log =
      (log ++ [syncEntry oracle urls], some (syncSummaryOf oracle urls)) := by
  show ((log ++ [initialEntry]).dropLast ++ [syncEntry oracle urls],
    some (syncSummaryOf oracle urls)) = _
  rw [dropLast_append_singleton]

/-- Claim C1, counterexample: when discovery raises, full_sync propagates the
exception (no summary is produced) and the run-log entry created at run
start is left with status running and no completion stamp - it is not
finalized with the error recorded, contrary to the claim. -/
theorem full_sync_discovery_counterexample :
    (full_sync (.error "invalid_grant") (fun _ => .ok 0) []).2 = none ∧
    (full_sync (.error "invalid_grant") (fun _ => .ok 0) []).1 = [initialEntry] ∧
    initialEntry.status = "running" ∧ initialEntry.completed = false ∧
    initialEntry.errors = "" :=
  ⟨rfl, rfl, rfl, rfl, rfl⟩

/-- Claim C1 (amended): a run whose discovery raises is not finalized - the
exception propagates out of full_sync and the entry created at run start
stays in status running with nothing recorded; only a run whose discovery
succeeds finalizes its single run-log entry, with a terminal status. -/
theorem full_sync_finalization (oracle : String → SyncOutcome)
    (log : List RunLogEntry) :
    (∀ e, full_sync (.error e) oracle log = (log ++ [initialEntry], none)) ∧
    initialEntry.status = "running" ∧ initialEntry.completed = false ∧
    (∀ urls, full_sync (.ok urls) oracle log =
        (log ++ [syncEntry oracle urls], some (syncSummaryOf oracle urls)) ∧
      (syncEntry oracle urls).completed = true ∧
      (syncEntry oracle urls).status = (syncSummaryOf oracle urls).status ∧
      ((syncEntry oracle urls).status = "completed" ∨
        (syncEntry oracle urls).status = "completed_with_errors")) := by
  refine ⟨fun e => rfl, rfl, rfl, fun urls => ⟨full_sync_ok_eq oracle log urls, rfl, rfl, ?_⟩⟩
  by_cases hr : (runSources oracle (dedupKeys urls)).2.1 = []
  · left
    simp [syncEntry, hr]
  · right
    simp [syncEntry, hr]

/-- Claim C1, witness for the amended statement: a concrete failing
discovery leaves the entry in status running, a concrete successful
discovery over no sources finalizes with status completed. -/
theorem full_sync_finalization_witness :
    full_sync (.error "invalid_grant") (fun _ => .ok 0) [] = ([initialEntry], none) ∧
    full_sync (.ok []) (fun _ => .ok 0) [] =
      ([syncEntry (fun _ => .ok 0) []], some (syncSummaryOf (fun _ => .ok 0) [])) :=
  ⟨(full_sync_finalization (fun _ => .ok 0) []).1 "invalid_grant",
   ((full_sync_finalization (fun _ => .ok 0) []).2.2.2 []).1⟩

theorem colon_append_ne_empty (a e : String) : a ++ ": " ++ e ≠ "" := by
  intro h
  have hlen := congrArg String.length h
  simp [String.length_append] at hlen
  exact absurd hlen.1.2 (by decide)

theorem dedupKeys_pair {a b : String} (hab : a ≠ b) : dedupKeys [a, b] = [a, b] := by
  simp [dedupKeys, Ne.symm hab]

theorem runSources_fail_ok (a b e : String) (n : Nat) (oracle : String → SyncOutcome)
    (ha : oracle a = .fail e) (hb : oracle b = .ok n) :
    runSources oracle [a, b] = (n, [a ++ ": " ++ e], 1) := by
  simp [runSources, sync_property_result, ha, hb, colon_append_ne_empty]

/-- Claim C4: with two discovered sources where the sync of a raises and the
sync of b succeeds with n rows, full_sync finalizes the run with status
completed_with_errors, a synced count of exactly 1, and an error list whose
single entry is the message tagged with the identifier of a; the failure of
a does not stop the processing of b, whose rows are counted. -/
theorem full_sync_run_isolation (a b e : String) (n : Nat)
    (oracle : String → SyncOutcome) (log : List RunLogEntry)
    (hab : a ≠ b) (ha : oracle a = .fail e) (hb : oracle b = .ok n) :
    full_sync (.ok [a, b]) oracle log =
      (log ++ [{ completed := true, sites_synced := 1, total_rows := n,
                 errors := a ++ ": " ++ e, status := "completed_with_errors" }],
       some { properties_discovered := 2, sites_synced := 1, total_rows := n,
              errors := [a ++ ": " ++ e], status := "completed_with_errors" }) := by
  rw [full_sync_ok_eq]
  have hdd : dedupKeys [a, b] = [a, b] := dedupKeys_pair hab
  have hrun : runSources oracle (dedupKeys [a, b]) = (n, [a ++ ": " ++ e], 1) := by
    rw [hdd]
    exact runSources_fail_ok a b e n oracle ha hb
  simp [syncEntry, syncSummaryOf, hrun]
  rfl

/-- Claim C4, witness: a concrete oracle where source a raises access denied
and source b ingests 5 rows. -/
theorem full_sync_run_isolation_witness :
    full_sync (.ok ["https://a.com/", "https://b.com/"])
      (fun u => if u = "https://a.com/" then .fail "access denied" else .ok 5) [] =
      ([{ completed := true, sites_synced := 1, total_rows := 5,
          errors := "https://a.com/" ++ ": " ++ "access denied",
          status := "completed_with_errors" }],
       some { properties_discovered := 2, sites_synced := 1, total_rows := 5,
              errors := ["https://a.com/" ++ ": " ++ "access denied"],
              status := "completed_with_errors" }) :=
  full_sync_run_isolation "https://a.com/" "https://b.com/" "access denied" 5
    (fun u => if u = "https://a.com/" then .fail "access denied" else .ok 5) []
    (by decide) (by simp) (by simp)

/-! Claim C10: the movers query silently drops small position changes. -/

theorem mem_movRows (facts : List Fact) (today : Int) (days limit : Nat) (r : MoverRow)
    (hr : r ∈ (get_movers facts today days limit).1 ∨
      r ∈ (get_movers facts today days limit).2) :
    (∃ k, r = moverRow facts today days k) ∧ 1 < |r.prev_pos - r.current_pos| := by
  have hrows : r ∈ movRows facts today days := by
    rcases hr with h1 | h1
    · have h2 := List.mem_of_mem_take h1
      have h3 := (List.mem_filter.1 h2).1
      have h4 := List.mem_of_mem_take h3
      exact (mem_sortBy _ r _).1 h4
    · have h2 := List.mem_of_mem_take h1
      have h3 := (mem_sortBy _ r _).1 h2
      have h4 := (List.mem_filter.1 h3).1
      have h5 := List.mem_of_mem_take h4
      exact (mem_sortBy _ r _).1 h5
  rcases List.mem_filter.1 hrows with ⟨hmap, habs⟩
  rcases List.mem_map.1 hmap with ⟨k, _, rfl⟩
  refine ⟨⟨k, rfl⟩, ?_⟩
  simpa using habs

/-- Claim C10: every row get_movers returns, winner or loser, has an
absolute impression-weighted position change strictly greater than 1, and a
(site, keyword) pair whose change between the two windows has absolute
value at most 1 appears in neither list, even when it has data in both
windows. -/
theorem movers_threshold (facts : List Fact) (today : Int) (days limit : Nat)
    (sid : Nat) (kw : String)
    (h : |wAvgPos (prevGroup facts today days sid kw) -
      wAvgPos (thisGroup facts today days sid kw)| ≤ 1) :
    (((get_movers facts today days limit).1 ++ (get_movers facts today days limit).2).all
      (fun r => decide (1 < |r.prev_pos - r.current_pos|) &&
        !(decide (r.site_id = sid) && decide (r.keyword = kw)))) = true := by
  rw [List.all_eq_true]
  intro r hr
  have hsub := mem_movRows facts today days limit r
    (by rcases List.mem_append.1 hr with h1 | h1
        · exact Or.inl h1
        · exact Or.inr h1)
  obtain ⟨⟨k, rfl⟩, habs⟩ := hsub
  have hnk : ¬ ((moverRow facts today days k).site_id = sid ∧
      (moverRow facts today days k).keyword = kw) := by
    rintro ⟨hs, hkw⟩
    have hk : k = (sid, kw) := Prod.ext hs hkw
    rw [hk] at habs
    exact absurd habs (not_lt.2 h)
  rw [Bool.and_eq_true]
  constructor
  · exact decide_eq_true habs
  · simp only [Bool.not_eq_true', Bool.and_eq_false_iff, decide_eq_false_iff_not,
      decide_eq_true_eq]
    by_cases hs : (moverRow facts today days k).site_id = sid
    · right
      intro hkw
      exact hnk ⟨hs, hkw⟩
    · left
      exact hs

/-- The fact table of the C10 witness: keyword gamma of site 2 moves from
weighted position 6 in the previous window to 5 in the current one, a
change of exactly 1. -/
def moversFactsW : List Fact :=
  [{ site_id := 2, keyword := "gamma", page := "/g", query_date := 95, clicks := 1,
     impressions := 1, ctr := 1, position := 5, synced_at := 0 },
   { site_id := 2, keyword := "gamma", page := "/g", query_date := 90, clicks := 1,
     impressions := 1, ctr := 1, position := 6, synced_at := 0 }]

/-- Claim C10, witness: with the change of exactly 1, keyword gamma is
excluded from winners and losers of the run with today = 100, days = 7. -/
theorem movers_threshold_witness :
    (((get_movers moversFactsW 100 7 100).1 ++ (get_movers moversFactsW 100 7 100).2).all
      (fun r => decide (1 < |r.prev_pos - r.current_pos|) &&
        !(decide (r.site_id = 2) && decide (r.keyword = "gamma")))) = true :=
  movers_threshold moversFactsW 100 7 100 2 "gamma" (by
    have hp : wAvgPos (prevGroup moversFactsW 100 7 2 "gamma") = 6 := by
      norm_num [prevGroup, moversFactsW, wAvgPos]
    have ht : wAvgPos (thisGroup moversFactsW 100 7 2 "gamma") = 5 := by
      norm_num [thisGroup, moversFactsW, wAvgPos]
    rw [hp, ht]
    norm_num)

end Gsc
